import Mathlib

/-!
Verification of the minivpn OpenVPN client core against its specification.

The development shallowly embeds the Go sources of the repository:
`vpn/framing.go` (wire framer), `vpn/muxer.go` (the VPN multiplexer) and
`pinger.go` (the ICMP demo's statistics printer).  Components of the
repository that are referenced by the muxer but whose sources are not part
of the snapshot (the packet codec, the control handler methods, the data
handler, the ping constant) are modelled from the specification; each such
definition carries a doc comment starting with "Modelled from the spec:".

Bytes are modelled as natural numbers (each < 256 where produced by the
code), byte strings as lists of naturals.  Fallible operations return
Except, side effects of the muxer (packets written to the transport, log
lines) are recorded explicitly in the muxer state.
-/

set_option autoImplicit false

/-- A byte string: the contents of a Go `[]byte`. -/
abbrev Bytes := List Nat

/- ======================  Wire framer (vpn/framing.go)  ====================== -/

/-- Embedding of `toSizeFrame` (`vpn/framing.go`): prepend the big-endian
encoding of `uint16(len(b))`, i.e. of `len(b) mod 2^16`, to `b`. -/
def toSizeFrame (b : Bytes) : Bytes :=
  (b.length % 65536) / 256 :: (b.length % 65536) % 256 :: b

/-- Modelled from the spec: the stream-transport `read_packet` of the framer
(§4.1) — the repository snapshot holds only the framing side.  It reads a
big-endian 16-bit length and then exactly that many bytes, failing when the
stream is too short. -/
def unframe (s : Bytes) : Option Bytes :=
  match s with
  | a :: b :: rest => if a * 256 + b ≤ rest.length then some (rest.take (a * 256 + b)) else none
  | _ => none

/- ======================  Pinger statistics (pinger.go)  ====================== -/

/-- Embedding of the loss computation of `Pinger.printStats` (`pinger.go`):
`loss := (p.packetsRecv / p.packetsSent) / 100` with Go integer division
(both counters are non-negative ints, so Nat division agrees). -/
def printStatsLoss (packetsRecv packetsSent : Nat) : Nat :=
  (packetsRecv / packetsSent) / 100

/-- The packet-loss percentage the specification asks for:
`100 * (1 - received/sent)` computed without integer truncation. -/
def specLossPct (packetsRecv packetsSent : ℚ) : ℚ :=
  100 * (1 - packetsRecv / packetsSent)

/- ======================  Packet codec  ====================== -/

/-- Opcode `P_CONTROL_V1` (OpenVPN wire value). -/
def pControlV1 : Nat := 4
/-- Opcode `P_ACK_V1` (OpenVPN wire value). -/
def pAckV1 : Nat := 5
/-- Opcode `P_DATA_V1` (OpenVPN wire value). -/
def pDataV1 : Nat := 6
/-- Opcode `P_CONTROL_HARD_RESET_CLIENT_V2` (OpenVPN wire value). -/
def pControlHardResetClientV2 : Nat := 7
/-- Opcode `P_CONTROL_HARD_RESET_SERVER_V2` (OpenVPN wire value). -/
def pControlHardResetServerV2 : Nat := 8

/-- A parsed OpenVPN packet (spec §3/§4.2).  For data packets only the
opcode, key id and payload are populated. -/
structure Packet where
  opcode : Nat
  keyID : Nat
  localSessionID : Bytes := []
  acks : List Nat := []
  remoteSessionID : Bytes := []
  packetID : Option Nat := none
  payload : Bytes := []
deriving DecidableEq

/-- Big-endian 32-bit word from four bytes. -/
def be32 (a b c d : Nat) : Nat := ((a * 256 + b) * 256 + c) * 256 + d

/-- Read `n` big-endian 32-bit ack entries off the front of a byte string. -/
def readAckList : Nat → Bytes → Option (List Nat × Bytes)
  | 0, rest => some ([], rest)
  | n + 1, a :: b :: c :: d :: rest =>
    match readAckList n rest with
    | some (l, r) => some (be32 a b c d :: l, r)
    | none => none
  | _ + 1, _ => none

/-- Tail of the control-packet header: the packet id (absent on ACK) and the
payload. -/
def parseControlTail (op kid : Nat) (lsid : Bytes) (acks : List Nat) (rsid : Bytes)
    (r : Bytes) : Except String Packet :=
  if op = pAckV1 then
    .ok { opcode := op, keyID := kid, localSessionID := lsid, acks := acks,
          remoteSessionID := rsid, packetID := none, payload := r }
  else
    match r with
    | a :: b :: c :: d :: payload =>
      .ok { opcode := op, keyID := kid, localSessionID := lsid, acks := acks,
            remoteSessionID := rsid, packetID := some (be32 a b c d), payload := payload }
    | _ => .error "malformed header: truncated packet id"

/-- Modelled from the spec: `parsePacketFromBytes` (the packet codec, §4.2,
is not under the snapshot).  Header layout for control/ACK packets:
`opcode_keyid (1B) | local_session_id (8B) | ack_count (1B) |
ack_list (4B each) | remote_session_id (8B, if ack_count > 0) |
packet_id (4B, only on non-ACK control) | payload`; a data packet is
`opcode_keyid (1B) | payload`.  Parsing fails on truncation or unknown
opcode. -/
def parsePacketFromBytes (b : Bytes) : Except String Packet :=
  match b with
  | [] => .error "malformed header: empty packet"
  | h :: rest =>
    let op := h / 8
    let kid := h % 8
    if op = pDataV1 then
      .ok { opcode := op, keyID := kid, payload := rest }
    else if op = pControlV1 ∨ op = pAckV1 ∨
        op = pControlHardResetClientV2 ∨ op = pControlHardResetServerV2 then
      match rest with
      | s1 :: s2 :: s3 :: s4 :: s5 :: s6 :: s7 :: s8 :: n :: r =>
        match readAckList n r with
        | none => .error "malformed header: truncated ack list"
        | some (acks, r2) =>
          if n = 0 then
            parseControlTail op kid [s1, s2, s3, s4, s5, s6, s7, s8] acks [] r2
          else
            match r2 with
            | t1 :: t2 :: t3 :: t4 :: t5 :: t6 :: t7 :: t8 :: r3 =>
              parseControlTail op kid [s1, s2, s3, s4, s5, s6, s7, s8] acks
                [t1, t2, t3, t4, t5, t6, t7, t8] r3
            | _ => .error "malformed header: truncated remote session id"
      | _ => .error "malformed header: truncated control header"
    else .error "malformed header: unknown opcode"

/-- `packet.isACK` — the packet is an `P_ACK_V1` packet. -/
def Packet.isACK (p : Packet) : Bool := decide (p.opcode = pAckV1)

/-- `packet.isControl` — the packet carries a control opcode. -/
def Packet.isControl (p : Packet) : Bool :=
  decide (p.opcode = pControlV1 ∨ p.opcode = pControlHardResetClientV2 ∨
    p.opcode = pControlHardResetServerV2)

/-- `packet.isData` — the packet is a `P_DATA_V1` packet. -/
def Packet.isData (p : Packet) : Bool := decide (p.opcode = pDataV1)

/-- Modelled from the spec: the canonical 16-byte OpenVPN ping magic
(the constant `pingPayload` is not under the snapshot). -/
def pingMagic : Bytes :=
  [42, 24, 123, 243, 100, 30, 180, 203, 7, 237, 45, 10, 152, 31, 199, 72]

/-- `isPing` — byte-for-byte equality with the ping magic, applied by the
muxer to the RAW received bytes (muxer.go line 258: `isPing(data)`). -/
def isPing (b : Bytes) : Bool := decide (b = pingMagic)

/- ======================  Session / key material  ====================== -/

/-- The random material a peer contributes to the key schedule (spec §3;
the pre-master secret plays no role in the proved properties and is
omitted from the record). -/
structure KeySource where
  random1 : Bytes
  random2 : Bytes
deriving DecidableEq

/-- The active data-channel key slot (spec §3 DataChannelKey): the local
KeySource is created with the session, the remote one is added exactly once
after the server control message arrives. -/
structure KeySlot where
  localKS : KeySource
  remoteKS : Option KeySource
deriving DecidableEq

/-- Modelled from the spec: the outcome of the §4.7 key schedule (both
directional DataChannelStates).  The PRF expansion itself is abstracted;
only the fact that it consumes both KeySources matters here. -/
structure DerivedKeys where
  client : KeySource
  server : KeySource
deriving DecidableEq

/-- One packet the client put on the wire (transport or TLS channel),
recorded for the proofs of send obligations. -/
inductive SentEvent where
  | hardReset
  | ack (pid : Nat)
  | controlMsg
  | pushRequest
  | dataSent (wire : Bytes)
deriving DecidableEq

/-- Is this sent event a data-channel transmission? -/
def SentEvent.isDataSent : SentEvent → Bool
  | .dataSent _ => true
  | _ => false

/-- The errors the muxer surfaces (muxer.go and spec §7). -/
inductive VPNError where
  | transport (msg : String)
  | badHandshake
  | badControlMessage
  | authFailed
  | badServerReply
  | noKeys
deriving DecidableEq

/-- The mutable state of the muxer: the read buffer (`bufReader`), the
record of everything sent, the log lines, the session key slot, the derived
data-channel keys (none before `SetupKeys`), the remote session id and the
pushed tunnel ip. -/
structure MuxerState where
  bufReader : Bytes
  sent : List SentEvent
  logs : List String
  keySlot : KeySlot
  dataKeys : Option DerivedKeys
  remoteSessionID : Option Bytes
  tunnelIP : Option Bytes
deriving DecidableEq

/-- Append a log line (stands for the logger / stdout writes of the code). -/
def logMsg (st : MuxerState) (m : String) : MuxerState :=
  { st with logs := st.logs ++ [m] }

/-- Record one packet written out. -/
def emit (st : MuxerState) (e : SentEvent) : MuxerState :=
  { st with sent := st.sent ++ [e] }

/-- The muxer state right after `newMuxerFromOptions`: empty read buffer,
nothing sent, a fresh key slot holding only the local KeySource. -/
def initialMuxer (ks : KeySource) : MuxerState :=
  { bufReader := [], sent := [], logs := [], keySlot := { localKS := ks, remoteKS := none },
    dataKeys := none, remoteSessionID := none, tunnelIP := none }

/- ======================  Data handler (interface)  ====================== -/

/-- The `dataHandler` interface of muxer.go, as the muxer consumes it: the
methods close over the derived-keys state held by the muxer.  `readPacket`
is `ReadPacket` (authenticate + decrypt an incoming data packet),
`encodePayload` builds the wire form `WritePacket` sends. -/
structure DataHandler where
  readPacket : Option DerivedKeys → Packet → Except String Bytes
  encodePayload : Option DerivedKeys → Bytes → Except String Bytes

/-- Modelled from the spec: the concrete data handler (§4.8) is not under
the snapshot.  The cipher/HMAC envelope is abstracted to an identity
envelope behind the data opcode byte; what the model keeps is that both
directions require the derived DataChannelStates (present only after the
key schedule ran, spec §3 and I4) and that decryption recovers the
payload. -/
def specDataHandler : DataHandler :=
  { readPacket := fun ks p =>
      match ks with
      | none => .error "bad state: data channel not initialized"
      | some _ => .ok p.payload
    encodePayload := fun ks b =>
      match ks with
      | none => .error "bad state: data channel not initialized"
      | some _ => .ok (pDataV1 * 8 :: b) }

/- ======================  Muxer: reading packets  ====================== -/

/-- Embedding of `muxer.handleDataPing` (muxer.go lines 281-285): log, then
write one data packet carrying the ping magic; the write result is
discarded. -/
def handleDataPing (dh : DataHandler) (st : MuxerState) : MuxerState :=
  let st := logMsg st "openvpn-ping, sending reply"
  match dh.encodePayload st.dataKeys pingMagic with
  | .error _ => st
  | .ok wire => emit st (.dataSent wire)

/-- Embedding of `muxer.handleIncomingPacket` (muxer.go lines 230-278).
The argument `incoming` is the result of `readPacket(m.conn)` — either a
transport error or the raw bytes of one packet.  Returns the new state and
the boolean the Go function returns (true exactly when a decrypted data
payload was appended to the read buffer). -/
def handleIncomingPacket (dh : DataHandler) (st : MuxerState)
    (incoming : Except String Bytes) : MuxerState × Bool :=
  match incoming with
  | .error e => (logMsg st e, false)
  | .ok data =>
    match parsePacketFromBytes data with
    | .error e => (logMsg st e, false)
    | .ok p =>
      if p.isACK then (logMsg st "muxer: got ACK (ignored)", false)
      else if p.isControl then (logMsg st "Got control packet", false)
      else if !p.isData then (logMsg st "unhandled data", false)
      else if isPing data then (handleDataPing dh st, false)
      else
        match dh.readPacket st.dataKeys p with
        | .error e => (logMsg st ("bad decryption: " ++ e), false)
        | .ok plaintext => ({ st with bufReader := st.bufReader ++ plaintext }, true)

/-- The loop of `muxer.Read` (`for !m.handleIncomingPacket() {}`), driven by
the finite list of transport read results available to this call: process
events until one returns true.  The boolean records whether the loop
terminated; `false` means the code would still be blocked waiting on the
transport. -/
def readDrive (dh : DataHandler) : MuxerState → List (Except String Bytes) → MuxerState × Bool
  | st, [] => (st, false)
  | st, e :: rest =>
    match handleIncomingPacket dh st e with
    | (st1, true) => (st1, true)
    | (st1, false) => readDrive dh st1 rest

/-- Embedding of `muxer.Read` (muxer.go lines 423-427): loop on
`handleIncomingPacket` until it returns true, then drain the read buffer to
the caller.  `none` models the call still blocking after consuming every
transport event in `events` (the Go loop never returns in that case — it
has no error path). -/
def muxerRead (dh : DataHandler) (st : MuxerState)
    (events : List (Except String Bytes)) : Option (MuxerState × Bytes) :=
  match readDrive dh st events with
  | (st1, true) => some ({ st1 with bufReader := [] }, st1.bufReader)
  | (_, false) => none

/-- Embedding of `muxer.Write` (muxer.go lines 417-419): delegate to the
data handler with no readiness check of its own. -/
def muxerWrite (dh : DataHandler) (st : MuxerState) (b : Bytes) :
    MuxerState × Except String Nat :=
  match dh.encodePayload st.dataKeys b with
  | .error e => (st, .error e)
  | .ok wire => (emit st (.dataSent wire), .ok b.length)

/- ======================  Control handler / handshake  ====================== -/

/-- ASCII bytes of the string "AUTH_FAILED". -/
def authFailedMagic : Bytes := [65, 85, 84, 72, 95, 70, 65, 73, 76, 69, 68]

/-- ASCII bytes of the string "PUSH_REPLY". -/
def pushReplyMagic : Bytes := [80, 85, 83, 72, 95, 82, 69, 80, 76, 89]

/-- Modelled from the spec: `isControlMessage` — a TLS payload is a control
message v1 when it starts with the four-byte null magic `0x00000000`
(§4.5; the muxer error text calls it the null header). -/
def isControlMessage (b : Bytes) : Bool := decide (b.take 4 = [0, 0, 0, 0])

/-- Modelled from the spec: `isBadAuthReply` — the TLS payload carries the
"AUTH_FAILED" prefix (§4.5 auth-failed row). -/
def isBadAuthReply (b : Bytes) : Bool := decide (b.take 11 = authFailedMagic)

/-- Modelled from the spec: `isPushReply` — the TLS payload carries the
"PUSH_REPLY" prefix (§4.5 push-reply row). -/
def isPushReply (b : Bytes) : Bool := decide (b.take 10 = pushReplyMagic)

/-- Modelled from the spec: `control.ReadControlMessage` (§4.5 control
message v1, inbound): after the null magic and the `0x02` key-method byte
come the remote KeySource (48-byte zero pre-master, then random1 and
random2, 32 bytes each) and the remote options string.  Fails when the
body is too short or badly tagged. -/
def readControlMessageBody (b : Bytes) : Except String (KeySource × Bytes) :=
  if b.take 5 = [0, 0, 0, 0, 2] ∧ 117 ≤ b.length then
    .ok ({ random1 := (b.drop 53).take 32, random2 := (b.drop 85).take 32 }, b.drop 117)
  else .error "bad control message"

/-- Modelled from the spec: `control.ParseHardReset` (§4.5 hard-reset
server v2 row): parse the packet and extract the server session id from the
header; any other packet is an error. -/
def parseHardReset (b : Bytes) : Except String Bytes :=
  match parsePacketFromBytes b with
  | .error e => .error e
  | .ok p =>
    if p.opcode = pControlHardResetServerV2 then .ok p.localSessionID
    else .error "cannot parse hard reset"

/-- Embedding of `muxer.Reset` (muxer.go lines 197-221): send the hard
reset, read one packet (`incoming` is the result of `readPacket(m.conn)`),
parse it, record the remote session id and acknowledge packet-id 0.  The
`SendACK` error is discarded by the code, and the model's send always
succeeds. -/
def muxerReset (st : MuxerState) (incoming : Except String Bytes) :
    MuxerState × Except VPNError Unit :=
  let st := emit st .hardReset
  match incoming with
  | .error e => (st, .error (.transport e))
  | .ok resp =>
    match parseHardReset resp with
    | .error _ => (st, .error .badHandshake)
    | .ok rsid =>
      let st := { st with remoteSessionID := some rsid }
      (emit st (.ack 0), .ok ())

/-- Embedding of `muxer.readAndLoadRemoteKey` (muxer.go lines 298-325):
read one TLS packet, require the control-message null header, parse the
remote KeySource and store it in the active key slot.  (The remote-options
bookkeeping feeds only logging and the tunnel record and is omitted.) -/
def readAndLoadRemoteKey (st : MuxerState) (incoming : Except String Bytes) :
    MuxerState × Except VPNError Unit :=
  match incoming with
  | .error e => (st, .error (.transport e))
  | .ok data =>
    if isControlMessage data then
      match readControlMessageBody data with
      | .error _ => (logMsg st "cannot parse control message", .error .badHandshake)
      | .ok (remoteKey, _) =>
        ({ st with keySlot := { st.keySlot with remoteKS := some remoteKey } }, .ok ())
    else (st, .error .badControlMessage)

/-- Modelled from the spec: `data.SetupKeys` (§4.7) as invoked at step 3 of
`InitDataWithRemoteKey` — the key schedule needs both KeySources of the
active slot and then yields both directional states; with the remote
KeySource missing it cannot run. -/
def setupKeysStep (st : MuxerState) : MuxerState × Except VPNError Unit :=
  match st.keySlot.remoteKS with
  | none => (st, .error .noKeys)
  | some rk => ({ st with dataKeys := some { client := st.keySlot.localKS, server := rk } }, .ok ())

/-- Embedding of `muxer.readPushReply` (muxer.go lines 336-356): read one
TLS packet; an "AUTH_FAILED" reply fails with `errBadAuth`, a non
push-reply fails with `errBadServerReply`, otherwise the pushed tunnel ip
is stored (ip extraction abbreviated to the remainder of the reply). -/
def readPushReply (st : MuxerState) (incoming : Except String Bytes) :
    MuxerState × Except VPNError Unit :=
  match incoming with
  | .error e => (st, .error (.transport e))
  | .ok resp =>
    if isBadAuthReply resp then (st, .error .authFailed)
    else if isPushReply resp then
      ({ st with tunnelIP := some (resp.drop 11) }, .ok ())
    else (st, .error .badServerReply)

/-- Embedding of `muxer.InitDataWithRemoteKey` (muxer.go lines 374-410):
send the control message, read and load the remote key, run the key
schedule on the active slot, send the push request and read the push reply.
`in1` and `in2` are the two TLS reads the function performs. -/
def initDataWithRemoteKey (st : MuxerState) (in1 in2 : Except String Bytes) :
    MuxerState × Except VPNError Unit :=
  let st := emit st .controlMsg
  match readAndLoadRemoteKey st in1 with
  | (st, .error e) => (st, .error e)
  | (st, .ok _) =>
    match setupKeysStep st with
    | (st, .error e) => (st, .error e)
    | (st, .ok _) =>
      let st := emit st .pushRequest
      readPushReply st in2

/- ======================  Traces of the muxer interface  ====================== -/

/-- One invocation of the `vpnMuxer` interface, with the transport input it
consumes: `handshake` is `Handshake` (Reset, then the TLS handshake —
which never touches the data channel — then `InitDataWithRemoteKey`),
`read` carries the list of transport read results that drive its loop. -/
inductive MuxerOp where
  | reset (incoming : Except String Bytes)
  | initData (in1 in2 : Except String Bytes)
  | handshake (incoming in1 in2 : Except String Bytes)
  | write (b : Bytes)
  | read (events : List (Except String Bytes))

/-- The state after one interface call (return values dropped; a blocked
`read` is represented by the state it has reached so far). -/
def stepOp (dh : DataHandler) (st : MuxerState) : MuxerOp → MuxerState
  | .reset inc => (muxerReset st inc).1
  | .initData i1 i2 => (initDataWithRemoteKey st i1 i2).1
  | .handshake inc i1 i2 =>
    match muxerReset st inc with
    | (st1, .ok _) => (initDataWithRemoteKey st1 i1 i2).1
    | (st1, .error _) => st1
  | .write b => (muxerWrite dh st b).1
  | .read evs =>
    match readDrive dh st evs with
    | (st1, true) => { st1 with bufReader := [] }
    | (st1, false) => st1

/-- Run a sequence of interface calls from a state. -/
def runOps (dh : DataHandler) (st : MuxerState) (ops : List MuxerOp) : MuxerState :=
  ops.foldl (stepOp dh) st

/-- Has some data-channel payload been put on the wire? -/
def hasDataSent (st : MuxerState) : Bool := st.sent.any SentEvent.isDataSent

/-- Whether one transport read result would make `handleIncomingPacket`
return true (an accepted, decrypted data payload), as a function of the
derived-keys state only: transport errors, unparsable packets, ACKs,
control packets, ping-magic matches and decryption failures all yield
false. -/
def acceptsData (dh : DataHandler) (ks : Option DerivedKeys) (e : Except String Bytes) : Bool :=
  match e with
  | .error _ => false
  | .ok data =>
    match parsePacketFromBytes data with
    | .error _ => false
    | .ok p =>
      if p.isACK then false
      else if p.isControl then false
      else if !p.isData then false
      else if isPing data then false
      else
        match dh.readPacket ks p with
        | .error _ => false
        | .ok _ => true

/-- The inductive invariant behind I4: once a data-channel payload is on
the wire the derived keys exist, and derived keys exist only with both
KeySources in the active slot (the local one is always there). -/
def keysInv (st : MuxerState) : Prop :=
  (hasDataSent st = true → st.dataKeys.isSome = true) ∧
  (st.dataKeys.isSome = true → st.keySlot.remoteKS.isSome = true)

/- ======================  Concrete states and inputs  ====================== -/

/-- A concrete local KeySource for witnesses and counterexamples. -/
def exampleKS : KeySource :=
  { random1 := List.replicate 32 1, random2 := List.replicate 32 2 }

/-- A concrete remote KeySource for witnesses and counterexamples. -/
def exampleRemoteKS : KeySource :=
  { random1 := List.replicate 32 3, random2 := List.replicate 32 4 }

/-- A muxer state in the Ready phase: handshake done, both KeySources in
the slot, derived keys present, nothing sent or buffered yet. -/
def readyState : MuxerState :=
  { bufReader := [], sent := [], logs := [],
    keySlot := { localKS := exampleKS, remoteKS := some exampleRemoteKS },
    dataKeys := some { client := exampleKS, server := exampleRemoteKS },
    remoteSessionID := some [1, 2, 3, 4, 5, 6, 7, 8], tunnelIP := none }

/-- Wire bytes of a `P_CONTROL_V1` packet with packet-id 7 and a small
payload (opcode byte 32 = 4 * 8, 8-byte session id, empty ack list). -/
def ctrlWire : Bytes :=
  32 :: ([9, 9, 9, 9, 9, 9, 9, 9] ++ [0] ++ [0, 0, 0, 7] ++ [1, 2, 3])

/-- The parse of `ctrlWire`. -/
def ctrlPacket : Packet :=
  { opcode := 4, keyID := 0, localSessionID := [9, 9, 9, 9, 9, 9, 9, 9], acks := [],
    remoteSessionID := [], packetID := some 7, payload := [1, 2, 3] }

/-- Wire bytes of a `P_DATA_V1` packet whose (model-)decrypted plaintext is
exactly the ping magic; the raw bytes differ from the magic (extra opcode
byte), as the wire form of a real encrypted ping also would. -/
def pingDataWire : Bytes := 48 :: pingMagic

/-- The parse of `pingDataWire`. -/
def pingDataPacket : Packet := { opcode := 6, keyID := 0, payload := pingMagic }

/-- Wire bytes of a well-formed `P_CONTROL_HARD_RESET_SERVER_V2` response
(opcode byte 64 = 8 * 8, server session id 1..8, empty ack list,
packet-id 0). -/
def hardResetWire : Bytes :=
  64 :: ([1, 2, 3, 4, 5, 6, 7, 8] ++ [0] ++ [0, 0, 0, 0])

/-- A well-formed inbound control message v1 body: null magic, key-method
2, then an all-zero remote KeySource and no options. -/
def controlMsgWire : Bytes := [0, 0, 0, 0, 2] ++ List.replicate 112 0

/-- The remote KeySource parsed out of `controlMsgWire`. -/
def parsedRemoteKS : KeySource :=
  { random1 := List.replicate 32 0, random2 := List.replicate 32 0 }

/-- A server TLS reply carrying the AUTH_FAILED prefix. -/
def authFailedWire : Bytes := authFailedMagic

/-- A well-formed push reply ("PUSH_REPLY," and nothing else of interest). -/
def pushReplyWire : Bytes := pushReplyMagic ++ [44]

/-- A data handler whose decryption always fails, standing for a MAC or
replay rejection inside `data.ReadPacket` (used to witness the silent-drop
behavior of the muxer; the muxer treats every `ReadPacket` error alike). -/
def failingDataHandler : DataHandler :=
  { readPacket := fun _ _ => .error "cannot decrypt",
    encodePayload := specDataHandler.encodePayload }

/-- A successful handshake followed by one user write: the interface trace
used to witness the key invariant. -/
def exampleOps : List MuxerOp :=
  [MuxerOp.handshake (Except.ok hardResetWire) (Except.ok controlMsgWire)
    (Except.ok pushReplyWire),
   MuxerOp.write [1, 2, 3]]

/- ======================  Helper lemmas  ====================== -/

@[simp] theorem logMsg_bufReader (st : MuxerState) (m : String) :
    (logMsg st m).bufReader = st.bufReader := rfl

@[simp] theorem logMsg_sent (st : MuxerState) (m : String) :
    (logMsg st m).sent = st.sent := rfl

@[simp] theorem logMsg_dataKeys (st : MuxerState) (m : String) :
    (logMsg st m).dataKeys = st.dataKeys := rfl

@[simp] theorem logMsg_keySlot (st : MuxerState) (m : String) :
    (logMsg st m).keySlot = st.keySlot := rfl

@[simp] theorem emit_bufReader (st : MuxerState) (e : SentEvent) :
    (emit st e).bufReader = st.bufReader := rfl

@[simp] theorem emit_sent (st : MuxerState) (e : SentEvent) :
    (emit st e).sent = st.sent ++ [e] := rfl

@[simp] theorem emit_dataKeys (st : MuxerState) (e : SentEvent) :
    (emit st e).dataKeys = st.dataKeys := rfl

@[simp] theorem emit_keySlot (st : MuxerState) (e : SentEvent) :
    (emit st e).keySlot = st.keySlot := rfl

@[simp] theorem hasDataSent_emit (st : MuxerState) (e : SentEvent) :
    hasDataSent (emit st e) = (hasDataSent st || e.isDataSent) := by
  simp [hasDataSent, emit]

@[simp] theorem hasDataSent_logMsg (st : MuxerState) (m : String) :
    hasDataSent (logMsg st m) = hasDataSent st := rfl

@[simp] theorem handleDataPing_bufReader (dh : DataHandler) (st : MuxerState) :
    (handleDataPing dh st).bufReader = st.bufReader := by
  cases h : dh.encodePayload st.dataKeys pingMagic <;> simp [handleDataPing, h]

@[simp] theorem handleDataPing_dataKeys (dh : DataHandler) (st : MuxerState) :
    (handleDataPing dh st).dataKeys = st.dataKeys := by
  cases h : dh.encodePayload st.dataKeys pingMagic <;> simp [handleDataPing, h]

@[simp] theorem handleDataPing_keySlot (dh : DataHandler) (st : MuxerState) :
    (handleDataPing dh st).keySlot = st.keySlot := by
  cases h : dh.encodePayload st.dataKeys pingMagic <;> simp [handleDataPing, h]

theorem handleIncomingPacket_snd (dh : DataHandler) (st : MuxerState)
    (e : Except String Bytes) :
    (handleIncomingPacket dh st e).2 = acceptsData dh st.dataKeys e := by
  cases e with
  | error s => rfl
  | ok data =>
    simp only [handleIncomingPacket, acceptsData]
    cases hp : parsePacketFromBytes data with
    | error s => simp [hp]
    | ok p =>
      by_cases h1 : p.isACK = true
      · simp [hp, h1]
      · by_cases h2 : p.isControl = true
        · simp [hp, h1, h2]
        · by_cases h3 : p.isData = true
          · by_cases h4 : isPing data = true
            · simp [hp, h1, h2, h3, h4]
            · cases hr : dh.readPacket st.dataKeys p with
              | error err => simp [hp, h1, h2, h3, h4, hr]
              | ok pt => simp [hp, h1, h2, h3, h4, hr]
          · simp [hp, h1, h2, h3]

theorem handleIncomingPacket_dataKeys (dh : DataHandler) (st : MuxerState)
    (e : Except String Bytes) :
    (handleIncomingPacket dh st e).1.dataKeys = st.dataKeys := by
  cases e with
  | error s => rfl
  | ok data =>
    simp only [handleIncomingPacket]
    cases hp : parsePacketFromBytes data with
    | error s => simp [hp]
    | ok p =>
      by_cases h1 : p.isACK = true
      · simp [hp, h1]
      · by_cases h2 : p.isControl = true
        · simp [hp, h1, h2]
        · by_cases h3 : p.isData = true
          · by_cases h4 : isPing data = true
            · simp [hp, h1, h2, h3, h4]
            · cases hr : dh.readPacket st.dataKeys p with
              | error err => simp [hp, h1, h2, h3, h4, hr]
              | ok pt => simp [hp, h1, h2, h3, h4, hr]
          · simp [hp, h1, h2, h3]

theorem handleIncomingPacket_keySlot (dh : DataHandler) (st : MuxerState)
    (e : Except String Bytes) :
    (handleIncomingPacket dh st e).1.keySlot = st.keySlot := by
  cases e with
  | error s => rfl
  | ok data =>
    simp only [handleIncomingPacket]
    cases hp : parsePacketFromBytes data with
    | error s => simp [hp]
    | ok p =>
      by_cases h1 : p.isACK = true
      · simp [hp, h1]
      · by_cases h2 : p.isControl = true
        · simp [hp, h1, h2]
        · by_cases h3 : p.isData = true
          · by_cases h4 : isPing data = true
            · simp [hp, h1, h2, h3, h4]
            · cases hr : dh.readPacket st.dataKeys p with
              | error err => simp [hp, h1, h2, h3, h4, hr]
              | ok pt => simp [hp, h1, h2, h3, h4, hr]
          · simp [hp, h1, h2, h3]

theorem readDrive_snd (dh : DataHandler) (st : MuxerState)
    (evs : List (Except String Bytes)) :
    (readDrive dh st evs).2 = evs.any (acceptsData dh st.dataKeys) := by
  induction evs generalizing st with
  | nil => rfl
  | cons e rest ih =>
    simp only [readDrive, List.any_cons]
    cases hb : handleIncomingPacket dh st e with
    | mk st1 b =>
      have h2 : b = acceptsData dh st.dataKeys e := by
        have h := handleIncomingPacket_snd dh st e
        rw [hb] at h
        exact h
      have hkeys : st1.dataKeys = st.dataKeys := by
        have h := handleIncomingPacket_dataKeys dh st e
        rw [hb] at h
        exact h
      cases b with
      | true => simp [← h2]
      | false => simp [← h2, ih st1, hkeys]

theorem readDrive_dataKeys (dh : DataHandler) (st : MuxerState)
    (evs : List (Except String Bytes)) :
    (readDrive dh st evs).1.dataKeys = st.dataKeys := by
  induction evs generalizing st with
  | nil => rfl
  | cons e rest ih =>
    simp only [readDrive]
    cases hb : handleIncomingPacket dh st e with
    | mk st1 b =>
      have hkeys : st1.dataKeys = st.dataKeys := by
        have h := handleIncomingPacket_dataKeys dh st e
        rw [hb] at h
        exact h
      cases b with
      | true => simpa using hkeys
      | false => simpa [ih st1] using hkeys

theorem readDrive_keySlot (dh : DataHandler) (st : MuxerState)
    (evs : List (Except String Bytes)) :
    (readDrive dh st evs).1.keySlot = st.keySlot := by
  induction evs generalizing st with
  | nil => rfl
  | cons e rest ih =>
    simp only [readDrive]
    cases hb : handleIncomingPacket dh st e with
    | mk st1 b =>
      have hks : st1.keySlot = st.keySlot := by
        have h := handleIncomingPacket_keySlot dh st e
        rw [hb] at h
        exact h
      cases b with
      | true => simpa using hks
      | false => simpa [ih st1] using hks

theorem handleIncomingPacket_sent_noKeys (st : MuxerState) (e : Except String Bytes)
    (hk : st.dataKeys = none) :
    (handleIncomingPacket specDataHandler st e).1.sent = st.sent := by
  cases e with
  | error s => rfl
  | ok data =>
    simp only [handleIncomingPacket]
    cases hp : parsePacketFromBytes data with
    | error s => simp [hp]
    | ok p =>
      by_cases h1 : p.isACK = true
      · simp [hp, h1]
      · by_cases h2 : p.isControl = true
        · simp [hp, h1, h2]
        · by_cases h3 : p.isData = true
          · by_cases h4 : isPing data = true
            · simp [hp, h1, h2, h3, h4, handleDataPing, hk, specDataHandler]
            · simp [hp, h1, h2, h3, h4, hk, specDataHandler]
          · simp [hp, h1, h2, h3]

theorem readDrive_sent_noKeys (st : MuxerState) (evs : List (Except String Bytes))
    (hk : st.dataKeys = none) :
    (readDrive specDataHandler st evs).1.sent = st.sent := by
  induction evs generalizing st with
  | nil => rfl
  | cons e rest ih =>
    simp only [readDrive]
    cases hb : handleIncomingPacket specDataHandler st e with
    | mk st1 b =>
      have hsent : st1.sent = st.sent := by
        have h := handleIncomingPacket_sent_noKeys st e hk
        rw [hb] at h
        exact h
      have hkeys : st1.dataKeys = none := by
        have h := handleIncomingPacket_dataKeys specDataHandler st e
        rw [hb] at h
        exact h.trans hk
      cases b with
      | true => simpa using hsent
      | false => simpa [ih st1 hkeys] using hsent

theorem keysInv_of_fields (st st' : MuxerState) (hd : st'.dataKeys = st.dataKeys)
    (hs : st'.keySlot = st.keySlot) (hh : hasDataSent st' = hasDataSent st)
    (h : keysInv st) : keysInv st' := by
  obtain ⟨h1, h2⟩ := h
  constructor
  · intro hx
    rw [hh] at hx
    rw [hd]
    exact h1 hx
  · intro hx
    rw [hd] at hx
    rw [hs]
    exact h2 hx

theorem keysInv_of_keys (st : MuxerState) (hd : st.dataKeys.isSome = true)
    (hs : st.keySlot.remoteKS.isSome = true) : keysInv st :=
  ⟨fun _ => hd, fun _ => hs⟩

theorem muxerReset_keysInv (st : MuxerState) (inc : Except String Bytes)
    (h : keysInv st) : keysInv ((muxerReset st inc).1) := by
  unfold muxerReset
  cases inc with
  | error e =>
    refine keysInv_of_fields st _ rfl rfl ?_ h
    simp [hasDataSent, emit, SentEvent.isDataSent]
  | ok resp =>
    cases hp : parseHardReset resp with
    | error e =>
      simp only [hp]
      refine keysInv_of_fields st _ rfl rfl ?_ h
      simp [hasDataSent, emit, SentEvent.isDataSent]
    | ok rsid =>
      simp only [hp]
      refine keysInv_of_fields st _ rfl rfl ?_ h
      simp [hasDataSent, emit, SentEvent.isDataSent]

theorem initData_keysInv (st : MuxerState) (i1 i2 : Except String Bytes)
    (h : keysInv st) : keysInv ((initDataWithRemoteKey st i1 i2).1) := by
  have h0 : keysInv (emit st .controlMsg) := by
    refine keysInv_of_fields st _ rfl rfl ?_ h
    simp [hasDataSent, emit, SentEvent.isDataSent]
  unfold initDataWithRemoteKey readAndLoadRemoteKey
  cases i1 with
  | error e => exact h0
  | ok data =>
    by_cases hc : isControlMessage data = true
    · simp only [hc, if_true]
      cases hm : readControlMessageBody data with
      | error e =>
        simp only [hm]
        refine keysInv_of_fields (emit st .controlMsg) _ rfl rfl ?_ h0
        simp [hasDataSent]
      | ok kr =>
        cases kr with
        | mk rk rest =>
          simp only [hm, setupKeysStep]
          unfold readPushReply
          cases i2 with
          | error e =>
            refine keysInv_of_keys _ rfl ?_
            simp
          | ok resp =>
            by_cases hb : isBadAuthReply resp = true
            · simp only [hb, if_true]
              refine keysInv_of_keys _ rfl ?_
              simp
            · by_cases hr : isPushReply resp = true
              · simp only [hb, hr, if_true, if_false, Bool.false_eq_true]
                refine keysInv_of_keys _ rfl ?_
                simp
              · simp only [hb, hr, if_false, Bool.false_eq_true]
                refine keysInv_of_keys _ rfl ?_
                simp
    · simp only [hc, if_false, Bool.false_eq_true]
      exact h0

theorem muxerWrite_keysInv (st : MuxerState) (b : Bytes)
    (h : keysInv st) : keysInv ((muxerWrite specDataHandler st b).1) := by
  cases hk : st.dataKeys with
  | none =>
    simpa [muxerWrite, specDataHandler, hk] using h
  | some k =>
    simp only [muxerWrite, specDataHandler, hk]
    refine keysInv_of_keys _ ?_ ?_
    · simp [hk]
    · have hx := h.2 (by simp [hk])
      simpa using hx

theorem readDrive_keysInv (st : MuxerState) (evs : List (Except String Bytes))
    (h : keysInv st) : keysInv ((readDrive specDataHandler st evs).1) := by
  cases hk : st.dataKeys with
  | none =>
    refine keysInv_of_fields st _ ?_ ?_ ?_ h
    · rw [readDrive_dataKeys]
    · rw [readDrive_keySlot]
    · simp [hasDataSent, readDrive_sent_noKeys st evs hk]
  | some k =>
    refine keysInv_of_keys _ ?_ ?_
    · rw [readDrive_dataKeys, hk]
      rfl
    · rw [readDrive_keySlot]
      exact h.2 (by simp [hk])

theorem stepOp_keysInv (st : MuxerState) (op : MuxerOp)
    (h : keysInv st) : keysInv (stepOp specDataHandler st op) := by
  cases op with
  | reset inc => exact muxerReset_keysInv st inc h
  | initData i1 i2 => exact initData_keysInv st i1 i2 h
  | handshake inc i1 i2 =>
    simp only [stepOp]
    cases hr : muxerReset st inc with
    | mk st1 r =>
      have h1 : keysInv st1 := by
        have hx := muxerReset_keysInv st inc h
        rw [hr] at hx
        exact hx
      cases r with
      | error e => exact h1
      | ok u => exact initData_keysInv st1 i1 i2 h1
  | write b => exact muxerWrite_keysInv st b h
  | read evs =>
    simp only [stepOp]
    cases hr : readDrive specDataHandler st evs with
    | mk st1 b =>
      have h1 : keysInv st1 := by
        have hx := readDrive_keysInv st evs h
        rw [hr] at hx
        exact hx
      cases b with
      | true => exact keysInv_of_fields st1 _ rfl rfl rfl h1
      | false => exact h1

theorem runOps_keysInv (st : MuxerState) (ops : List MuxerOp)
    (h : keysInv st) : keysInv (runOps specDataHandler st ops) := by
  induction ops generalizing st with
  | nil => exact h
  | cons op rest ih => exact ih (stepOp specDataHandler st op) (stepOp_keysInv st op h)

theorem keysInv_initial (ks : KeySource) : keysInv (initialMuxer ks) := by
  constructor
  · intro hx
    simp [hasDataSent, initialMuxer] at hx
  · intro hx
    simp [initialMuxer] at hx

/- ======================  Claim theorems  ====================== -/

/-- C8: for every byte string b with length at most 65535, the stream
framer emits the big-endian 16-bit length of b followed by b, and the
spec-modelled reader inverts it: unframe (toSizeFrame b) = some b. -/
theorem toSizeFrame_roundTrip (b : Bytes) (h : b.length ≤ 65535) :
    toSizeFrame b = b.length / 256 :: b.length % 256 :: b ∧
    unframe (toSizeFrame b) = some b := by
  have hlt : b.length < 65536 := by omega
  have hm : b.length % 65536 = b.length := Nat.mod_eq_of_lt hlt
  have hdm : b.length / 256 * 256 + b.length % 256 = b.length := by omega
  constructor
  · simp [toSizeFrame, hm]
  · simp only [toSizeFrame, hm, unframe]
    rw [hdm]
    simp

/-- C8 witness: the round trip at the concrete byte string [10, 20, 30]. -/
theorem toSizeFrame_roundTrip_witness :
    ([10, 20, 30] : Bytes).length ≤ 65535 ∧
    (toSizeFrame [10, 20, 30] =
        ([10, 20, 30] : Bytes).length / 256 :: ([10, 20, 30] : Bytes).length % 256 :: [10, 20, 30] ∧
      unframe (toSizeFrame [10, 20, 30]) = some [10, 20, 30]) :=
  ⟨by decide, toSizeFrame_roundTrip [10, 20, 30] (by decide)⟩

/-- C10: for every byte string b longer than 65535 bytes, toSizeFrame
prepends the big-endian encoding of the length reduced mod 2^16 while
still appending all of b, so the emitted prefix does not decode to the
length of the framed payload. -/
theorem toSizeFrame_truncates (b : Bytes) (h : 65535 < b.length) :
    toSizeFrame b = (b.length % 65536) / 256 :: (b.length % 65536) % 256 :: b ∧
    (b.length % 65536) / 256 * 256 + (b.length % 65536) % 256 ≠ b.length :=
  ⟨rfl, by omega⟩

/-- C10 witness: the truncation at a concrete 65536-byte string, whose
emitted length prefix decodes to 0. -/
theorem toSizeFrame_truncates_witness :
    65535 < (List.replicate 65536 0 : Bytes).length ∧
    (toSizeFrame (List.replicate 65536 0) =
        ((List.replicate 65536 0 : Bytes).length % 65536) / 256 ::
          ((List.replicate 65536 0 : Bytes).length % 65536) % 256 :: List.replicate 65536 0 ∧
      ((List.replicate 65536 0 : Bytes).length % 65536) / 256 * 256 +
          ((List.replicate 65536 0 : Bytes).length % 65536) % 256 ≠
        (List.replicate 65536 0 : Bytes).length) :=
  ⟨by rw [List.length_replicate]; omega,
   toSizeFrame_truncates (List.replicate 65536 0) (by rw [List.length_replicate]; omega)⟩

/-- C9: at packetsSent = 10, packetsRecv = 5 the code's integer loss
computation prints 0 while the specified floating-point formula yields 50;
the two disagree, so the printed percentage is not 100 * (1 - recv/sent). -/
theorem printStatsLoss_integer_division_bug :
    printStatsLoss 5 10 = 0 ∧ specLossPct 5 10 = 50 ∧
    (printStatsLoss 5 10 : ℚ) ≠ specLossPct 5 10 := by
  refine ⟨rfl, ?_, ?_⟩
  · norm_num [specLossPct]
  · norm_num [printStatsLoss, specLossPct]

/-- Glue: the Read call returns exactly when the loop found an accepted
data payload. -/
theorem muxerRead_isSome (dh : DataHandler) (st : MuxerState)
    (evs : List (Except String Bytes)) :
    (muxerRead dh st evs).isSome = (readDrive dh st evs).2 := by
  unfold muxerRead
  cases hr : readDrive dh st evs with
  | mk st1 b => cases b <;> simp

/-- C1 (amended): muxer.Read returns exactly when one of the transport
reads it performs yields an accepted, successfully decrypted data payload;
every transport read error is logged and the loop just continues (the
return value of handleIncomingPacket is false and carries no error), so a
failing transport leaves Read blocked instead of surfacing the error. -/
theorem muxerRead_returns_iff_data_accepted (dh : DataHandler) (st : MuxerState)
    (evs : List (Except String Bytes)) :
    (muxerRead dh st evs).isSome = evs.any (acceptsData dh st.dataKeys) ∧
    (∀ msg : String, handleIncomingPacket dh st (Except.error msg) = (logMsg st msg, false)) :=
  ⟨(muxerRead_isSome dh st evs).trans (readDrive_snd dh st evs), fun _ => rfl⟩

/-- C1 counterexample: in the Ready state, when the transport read fails
(closed transport), muxer.Read does not return at all — no bytes and, in
particular, no transport error reach the caller, contradicting the claim
that the error surfaces to Read. -/
theorem muxerRead_transport_error_blocks :
    muxerRead specDataHandler readyState [Except.error "read: transport closed"] = none ∧
    (handleIncomingPacket specDataHandler readyState
      (Except.error "read: transport closed")).2 = false :=
  ⟨rfl, rfl⟩

/-- C2 (amended): a received control or ACK packet is logged and discarded
by handleIncomingPacket — muxer state other than the log is untouched
(nothing is dispatched to any reliability layer or control handler, no ACK
is emitted) and the read loop continues. -/
theorem control_packets_dropped_without_ack (dh : DataHandler) (st : MuxerState)
    (data : Bytes) (p : Packet) (hp : parsePacketFromBytes data = Except.ok p)
    (hcp : p.isACK = true ∨ p.isControl = true) :
    (handleIncomingPacket dh st (Except.ok data)).1.sent = st.sent ∧
    (handleIncomingPacket dh st (Except.ok data)).1.bufReader = st.bufReader ∧
    (handleIncomingPacket dh st (Except.ok data)).2 = false := by
  cases hcp with
  | inl h1 => refine ⟨?_, ?_, ?_⟩ <;> simp [handleIncomingPacket, hp, h1]
  | inr h2 =>
    by_cases h1 : p.isACK = true
    · refine ⟨?_, ?_, ?_⟩ <;> simp [handleIncomingPacket, hp, h1]
    · refine ⟨?_, ?_, ?_⟩ <;> simp [handleIncomingPacket, hp, h1, h2]

/-- C2 witness: the amended behavior at a concrete CONTROL_V1 packet with
packet-id 7 arriving in the Ready state. -/
theorem control_packets_dropped_without_ack_witness :
    (handleIncomingPacket specDataHandler readyState (Except.ok ctrlWire)).1.sent =
        readyState.sent ∧
    (handleIncomingPacket specDataHandler readyState (Except.ok ctrlWire)).1.bufReader =
        readyState.bufReader ∧
    (handleIncomingPacket specDataHandler readyState (Except.ok ctrlWire)).2 = false :=
  control_packets_dropped_without_ack specDataHandler readyState ctrlWire ctrlPacket rfl
    (Or.inr rfl)

/-- C2 counterexample: the control packet with packet-id 7 is received in
the Ready state and accepted by the transport, yet nothing is sent in
response, and the next outbound packet (a data write) is a plain data
packet carrying no ACK list — packet-id 7 is never acknowledged, and the
packet is not dispatched anywhere (only a log line is produced). -/
theorem control_packet_never_acked :
    parsePacketFromBytes ctrlWire = Except.ok ctrlPacket ∧
    handleIncomingPacket specDataHandler readyState (Except.ok ctrlWire) =
      (logMsg readyState "Got control packet", false) ∧
    (muxerWrite specDataHandler
        (handleIncomingPacket specDataHandler readyState (Except.ok ctrlWire)).1 [5]).1.sent =
      [SentEvent.dataSent [48, 5]] :=
  ⟨rfl, rfl, rfl⟩

/-- C3 (amended): the muxer compares the RAW wire bytes against the ping
magic before decryption; consequently a data packet whose decrypted
plaintext equals the magic (but whose wire bytes do not, as for any
encrypted ping) is appended to the user read buffer like ordinary data and
no ping reply is sent.  Moreover raw bytes equal to the magic do not even
reach the ping branch, since their first byte parses as an ACK opcode. -/
theorem ping_check_on_raw_bytes (dh : DataHandler) (st : MuxerState)
    (data : Bytes) (p : Packet) (pt : Bytes)
    (hp : parsePacketFromBytes data = Except.ok p) (hd : p.isData = true)
    (hping : isPing data = false) (hrp : dh.readPacket st.dataKeys p = Except.ok pt) :
    handleIncomingPacket dh st (Except.ok data) =
      ({ st with bufReader := st.bufReader ++ pt }, true) ∧
    (handleIncomingPacket dh st (Except.ok pingMagic)).1.sent = st.sent ∧
    (handleIncomingPacket dh st (Except.ok pingMagic)).2 = false := by
  have hop : p.opcode = pDataV1 := of_decide_eq_true hd
  have h1 : p.isACK = false := by simp [Packet.isACK, hop, pDataV1, pAckV1]
  have h2 : p.isControl = false := by
    simp [Packet.isControl, hop, pDataV1, pControlV1, pControlHardResetClientV2,
      pControlHardResetServerV2]
  refine ⟨?_, rfl, rfl⟩
  simp [handleIncomingPacket, hp, h1, h2, hd, hping, hrp]

/-- C3 witness: the amended behavior at pingDataWire (a data packet whose
plaintext is exactly the ping magic) in the Ready state. -/
theorem ping_check_on_raw_bytes_witness :
    handleIncomingPacket specDataHandler readyState (Except.ok pingDataWire) =
      ({ readyState with bufReader := readyState.bufReader ++ pingMagic }, true) ∧
    (handleIncomingPacket specDataHandler readyState (Except.ok pingMagic)).1.sent =
        readyState.sent ∧
    (handleIncomingPacket specDataHandler readyState (Except.ok pingMagic)).2 = false :=
  ping_check_on_raw_bytes specDataHandler readyState pingDataWire pingDataPacket pingMagic
    rfl rfl rfl rfl

/-- C3 counterexample: a received data packet whose decrypted plaintext
equals the ping magic delivers all 16 plaintext bytes to the user read
buffer and sends no ping reply at all — the claim predicted exactly one
outbound ping and zero delivered bytes. -/
theorem decrypted_ping_delivered_no_reply :
    specDataHandler.readPacket readyState.dataKeys pingDataPacket = Except.ok pingMagic ∧
    handleIncomingPacket specDataHandler readyState (Except.ok pingDataWire) =
      ({ readyState with bufReader := pingMagic }, true) ∧
    (handleIncomingPacket specDataHandler readyState (Except.ok pingDataWire)).1.sent = [] :=
  ⟨rfl, rfl, rfl⟩

/-- C4: a received data packet that fails authentication/decryption (any
ReadPacket error) is dropped silently: the state change is exactly one
observability log line, no bytes are delivered, no error reaches the Read
caller (the return is the plain boolean false), and the read loop
continues with the remaining packets exactly as if from the logged
state. -/
theorem decryption_failure_silently_dropped (dh : DataHandler) (st : MuxerState)
    (data : Bytes) (p : Packet) (err : String) (rest : List (Except String Bytes))
    (hp : parsePacketFromBytes data = Except.ok p) (hd : p.isData = true)
    (hping : isPing data = false) (hrp : dh.readPacket st.dataKeys p = Except.error err) :
    handleIncomingPacket dh st (Except.ok data) =
      (logMsg st ("bad decryption: " ++ err), false) ∧
    readDrive dh st (Except.ok data :: rest) =
      readDrive dh (logMsg st ("bad decryption: " ++ err)) rest := by
  have hop : p.opcode = pDataV1 := of_decide_eq_true hd
  have h1 : p.isACK = false := by simp [Packet.isACK, hop, pDataV1, pAckV1]
  have h2 : p.isControl = false := by
    simp [Packet.isControl, hop, pDataV1, pControlV1, pControlHardResetClientV2,
      pControlHardResetServerV2]
  have hmain : handleIncomingPacket dh st (Except.ok data) =
      (logMsg st ("bad decryption: " ++ err), false) := by
    simp [handleIncomingPacket, hp, h1, h2, hd, hping, hrp]
  exact ⟨hmain, by simp [readDrive, hmain]⟩

/-- C4 witness: the silent drop at a concrete data packet with a failing
data handler (standing for a MAC/replay rejection) in the Ready state. -/
theorem decryption_failure_silently_dropped_witness :
    handleIncomingPacket failingDataHandler readyState (Except.ok (48 :: [1, 2, 3])) =
      (logMsg readyState ("bad decryption: " ++ "cannot decrypt"), false) ∧
    readDrive failingDataHandler readyState (Except.ok (48 :: [1, 2, 3]) :: []) =
      readDrive failingDataHandler
        (logMsg readyState ("bad decryption: " ++ "cannot decrypt")) [] :=
  decryption_failure_silently_dropped failingDataHandler readyState (48 :: [1, 2, 3])
    { opcode := 6, keyID := 0, payload := [1, 2, 3] } "cannot decrypt" [] rfl rfl rfl rfl

/-- C5: whenever Reset accepts the server hard-reset response (returns
without error), the packets it sent are exactly the hard reset followed by
the ACK for control packet-id 0, and the remote session id has been
recorded — so the ACK of packet-id 0 goes out before Reset returns, in
every successful run. -/
theorem reset_acks_packet_zero (st : MuxerState) (inc : Except String Bytes)
    (st2 : MuxerState) (h : muxerReset st inc = (st2, Except.ok ())) :
    st2.sent = st.sent ++ [SentEvent.hardReset, SentEvent.ack 0] ∧
    st2.remoteSessionID.isSome = true := by
  unfold muxerReset at h
  cases inc with
  | error e => simp at h
  | ok resp =>
    cases hp : parseHardReset resp with
    | error e =>
      simp only [hp] at h
      simp at h
    | ok rsid =>
      simp only [hp] at h
      injection h with ha hb
      rw [← ha]
      constructor
      · simp [emit, List.append_assoc]
      · simp [emit]

/-- C5 witness: a successful Reset run against a concrete well-formed
hard-reset-server response from the fresh muxer state. -/
theorem reset_acks_packet_zero_witness :
    (muxerReset (initialMuxer exampleKS) (Except.ok hardResetWire)).2 = Except.ok () ∧
    ((muxerReset (initialMuxer exampleKS) (Except.ok hardResetWire)).1.sent =
        (initialMuxer exampleKS).sent ++ [SentEvent.hardReset, SentEvent.ack 0] ∧
      (muxerReset (initialMuxer exampleKS) (Except.ok hardResetWire)).1.remoteSessionID.isSome =
        true) :=
  ⟨rfl, reset_acks_packet_zero (initialMuxer exampleKS) (Except.ok hardResetWire)
    (muxerReset (initialMuxer exampleKS) (Except.ok hardResetWire)).1 rfl⟩

/-- C6 (amended): AUTH_FAILED is only recognized at the push-reply step —
when the control-message exchange succeeded and the server then answers
the push request with an AUTH_FAILED-prefixed reply, InitDataWithRemoteKey
(and hence Handshake) fails with the AuthFailed error. -/
theorem authfailed_at_push_reply (st : MuxerState) (cm : Bytes) (rk : KeySource)
    (rest : Bytes) (resp : Bytes)
    (hcm : isControlMessage cm = true)
    (hbody : readControlMessageBody cm = Except.ok (rk, rest))
    (hba : isBadAuthReply resp = true) :
    (initDataWithRemoteKey st (Except.ok cm) (Except.ok resp)).2 =
      Except.error VPNError.authFailed := by
  unfold initDataWithRemoteKey readAndLoadRemoteKey setupKeysStep readPushReply
  simp [hcm, hbody, hba]

/-- C6 witness: the amended behavior at a concrete valid control message
followed by a concrete AUTH_FAILED reply. -/
theorem authfailed_at_push_reply_witness :
    isControlMessage controlMsgWire = true ∧
    readControlMessageBody controlMsgWire = Except.ok (parsedRemoteKS, []) ∧
    isBadAuthReply authFailedWire = true ∧
    (initDataWithRemoteKey (initialMuxer exampleKS) (Except.ok controlMsgWire)
        (Except.ok authFailedWire)).2 = Except.error VPNError.authFailed :=
  ⟨rfl, rfl, rfl,
   authfailed_at_push_reply (initialMuxer exampleKS) controlMsgWire parsedRemoteKS []
     authFailedWire rfl rfl rfl⟩

/-- C6 counterexample: when the server sends AUTH_FAILED instead of the
control message (the very case the claim names), the handshake step fails
with the BadControlMessage error, not with AuthFailed. -/
theorem authfailed_instead_of_control_message :
    (initDataWithRemoteKey (initialMuxer exampleKS) (Except.ok authFailedWire)
        (Except.ok pushReplyWire)).2 = Except.error VPNError.badControlMessage ∧
    VPNError.badControlMessage ≠ VPNError.authFailed :=
  ⟨rfl, by decide⟩

/-- C7 (I4): in every trace of muxer interface calls from the fresh state,
once some data-channel payload has been transmitted the derived directional
keys exist and the active slot holds both KeySources; since the spec-
modelled data handler cannot emit without derived keys, and derived keys
appear only via SetupKeys after the remote KeySource was stored, no data
payload is ever transmitted before both KeySources are present and the key
schedule has run. -/
theorem no_data_sent_before_keys (ks : KeySource) (ops : List MuxerOp)
    (h : hasDataSent (runOps specDataHandler (initialMuxer ks) ops) = true) :
    (runOps specDataHandler (initialMuxer ks) ops).dataKeys.isSome = true ∧
    (runOps specDataHandler (initialMuxer ks) ops).keySlot.remoteKS.isSome = true := by
  have hinv := runOps_keysInv (initialMuxer ks) ops (keysInv_initial ks)
  exact ⟨hinv.1 h, hinv.2 (hinv.1 h)⟩

set_option maxRecDepth 8000 in
/-- C7 witness: a successful handshake followed by one user write does put
a data payload on the wire, and then indeed both the derived keys and the
remote KeySource are present. -/
theorem no_data_sent_before_keys_witness :
    hasDataSent (runOps specDataHandler (initialMuxer exampleKS) exampleOps) = true ∧
    ((runOps specDataHandler (initialMuxer exampleKS) exampleOps).dataKeys.isSome = true ∧
      (runOps specDataHandler (initialMuxer exampleKS) exampleOps).keySlot.remoteKS.isSome =
        true) :=
  ⟨rfl, no_data_sent_before_keys exampleKS exampleOps rfl⟩
